import Mathlib

/-!
Shallow embedding of the `mafc` movie-recommendation chat orchestrator:
the generation client `callGemini` (src/services/llm.ts) and the
four-stage conversation orchestrator `AgentSystem` (src/agents/AgentSystem.ts),
together with theorems settling the frozen claims about them.

Strings are modelled by Lean `String`; JS string indices are modelled as
character offsets (all strings involved are within the basic plane, where
the two coincide).  Asynchronous execution is modelled by splitting each
turn into the part that runs before the `processUserMessage` promise
settles and the detached part that runs afterwards (the un-awaited
`runCriticAndHost` continuation).
-/

namespace Mafc

/-! ### JS string operations -/

/-- First index (character offset) at which `pat` occurs in a character list,
modelling `String.prototype.indexOf` restricted to found/not-found. -/
def listIndexOf (pat : List Char) : List Char → Option Nat
  | [] => if pat.isPrefixOf ([] : List Char) then some 0 else none
  | c :: t =>
    if pat.isPrefixOf (c :: t) then some 0
    else (listIndexOf pat t).map (· + 1)

/-- `s.indexOf(pat)`, as an `Option` instead of `-1` for absence. -/
def strIndexOf (s pat : String) : Option Nat :=
  listIndexOf pat.data s.data

/-- `s.includes(pat)`. -/
def strIncludes (s pat : String) : Bool :=
  (strIndexOf s pat).isSome

/-- `s.substring(0, n)` (take the first `n` characters). -/
def strTake (s : String) (n : Nat) : String :=
  String.mk (s.data.take n)

/-- `s.substring(n)` (drop the first `n` characters). -/
def strDrop (s : String) (n : Nat) : String :=
  String.mk (s.data.drop n)

/-- `s.trim()`: strip leading and trailing whitespace. -/
def strTrim (s : String) : String :=
  String.mk (((s.data.dropWhile Char.isWhitespace).reverse.dropWhile
    Char.isWhitespace).reverse)

/-! ### Data model (src/types.ts) -/

/-- Chat message.  The environment-dependent `id` (fresh random string) and
`timestamp` (clock value) fields of the source interface are omitted: no
orchestrator logic reads them. -/
structure Message where
  role : String
  content : String
  agentName : Option String := none
deriving Repr, DecidableEq

/-! ### Generation client (src/services/llm.ts, `callGemini`) -/

/-- An outbound HTTP request issued by the client. -/
structure GenRequest where
  url : String
  prompt : String
  systemInstruction : Option String
deriving Repr, DecidableEq

/-- The parts of the endpoint's HTTP response that `callGemini` inspects.
`candidates = none` models a JSON body whose `candidates` field is absent
or falsy; `some l` models a candidate array whose texts are `l`. -/
structure HttpResponse where
  ok : Bool
  status : Nat
  statusText : String
  bodyText : String
  candidates : Option (List String)
deriving Repr, DecidableEq

/-- Outcome of the `fetch` call: either an HTTP response, or a thrown value
(`isError` records whether the thrown value is an `Error` instance). -/
inductive FetchResult
  | resp (r : HttpResponse)
  | thrown (isError : Bool) (msg : String)
deriving Repr, DecidableEq

/-- Failure raised by `callGemini`.  The constructor tags the four distinct
failure sites of the source function (all are `Error` objects at runtime,
distinguished only by message text). -/
inductive GenError
  | config (msg : String)
  | api (status : Nat) (statusText : String) (body : String)
  | protocol (msg : String)
  | generic (msg : String)
deriving Repr, DecidableEq

/-- The `.message` of the raised `Error`. -/
def GenError.message : GenError → String
  | .config m => m
  | .api status statusText body =>
      "API Error " ++ toString status ++ ": " ++ statusText ++ ". " ++ body
  | .protocol m => m
  | .generic m => m

/-- Request URL built by `callGemini`. -/
def geminiUrl (model apiKey : String) : String :=
  "https://generativelanguage.googleapis.com/v1beta/models/" ++ model ++
    ":generateContent?key=" ++ apiKey

/-- `callGemini` (src/services/llm.ts).  Returns the result together with the
list of outbound requests the invocation issued; `net` is the behaviour of
the single `fetch`. -/
def callGemini (apiKey model prompt : String) (systemInstruction : Option String)
    (net : FetchResult) : Except GenError String × List GenRequest :=
  if apiKey = "" ∨ strTrim apiKey = "" then
    (.error (.config "API key is empty or missing"), [])
  else
    let req : GenRequest := ⟨geminiUrl model apiKey, prompt, systemInstruction⟩
    match net with
    | .resp r =>
      if r.ok = false then
        (.error (.api r.status r.statusText r.bodyText), [req])
      else
        match r.candidates with
        | some (t :: _) => (.ok t, [req])
        | _ => (.error (.protocol "No candidates returned from API"), [req])
    | .thrown isError msg =>
      (.error (.generic
        (if isError then msg else "Unknown error occurred during API call")), [req])

/-! ### Conversation orchestrator (src/agents/AgentSystem.ts) -/

/-- Agent role / stage. -/
inductive AgentRole
  | PROFILER
  | SPECIALIST
  | CRITIC
  | HOST
deriving Repr, DecidableEq

/-- `AgentState`: the orchestrator's mutable state. -/
structure AgentState where
  currentRole : AgentRole
  userProfile : String
  currentDemand : String
  recommendations : String
  history : List Message
  stateHistory : List AgentRole
deriving Repr, DecidableEq

/-- State installed by the `AgentSystem` constructor. -/
def initialState : AgentState :=
  { currentRole := .PROFILER
    userProfile := ""
    currentDemand := ""
    recommendations := ""
    history := []
    stateHistory := [.PROFILER] }

/-- `setHistory`: the caller replaces the working history wholesale. -/
def setHistory (s : AgentState) (history : List Message) : AgentState :=
  { s with history := history }

/-- The fixed backward-navigation keyword set. -/
def backwardKeywords : List String :=
  ["返回", "上一步", "回去", "退回", "重新", "重来"]

/-- `isBackwardRequest`: some keyword occurs as a substring of the text. -/
def isBackwardRequest (text : String) : Bool :=
  backwardKeywords.any fun keyword => strIncludes text keyword

/-- `transitionTo`: push the new role and make it current. -/
def transitionTo (s : AgentState) (newRole : AgentRole) : AgentState :=
  { s with stateHistory := s.stateHistory ++ [newRole], currentRole := newRole }

/-- `getAgentName`. -/
def getAgentName : AgentRole → String
  | .PROFILER => "Profiler"
  | .SPECIALIST => "Genre Specialist"
  | .CRITIC => "Critic"
  | .HOST => "Host"

/-- `addAgentMessage`: append an agent-role message (the `onMessageUpdate`
callback receives the same message). -/
def addAgentMessage (s : AgentState) (name content : String) : AgentState :=
  { s with history :=
      s.history ++ [{ role := "agent", content := content, agentName := some name }] }

/-- `addSystemMessage` delegates to `addAgentMessage` with name `"System"`. -/
def addSystemMessage (s : AgentState) (text : String) : AgentState :=
  addAgentMessage s "System" text

/-- `goBack`: pop one level of the stage stack, clear dependent data, emit a
stage-appropriate message.  Returns the new state and the source's boolean
result.  Under the guard `1 < length` the popped stack is nonempty, so the
`getLastD` default is never used. -/
def goBack (s : AgentState) : AgentState × Bool :=
  if s.stateHistory.length ≤ 1 then
    (addAgentMessage s "System" "已经是第一步了，无法返回更早的阶段。", false)
  else
    let poppedHistory := s.stateHistory.dropLast
    let previousRole := poppedHistory.getLastD .PROFILER
    let s1 : AgentState :=
      { s with stateHistory := poppedHistory, currentRole := previousRole }
    match previousRole with
    | .PROFILER =>
      (addAgentMessage
        { s1 with userProfile := "", currentDemand := "", recommendations := "" }
        "Profiler" "好的，让我们重新开始。请告诉我您最喜欢的三部电影？", true)
    | .SPECIALIST =>
      (addAgentMessage { s1 with currentDemand := "", recommendations := "" }
        "Genre Specialist"
        "明白，让我们重新确认。您今天想看什么类型的电影？刺激的、感动的还是轻松的？", true)
    | .HOST =>
      (addAgentMessage s1 "Host" "好的，有什么需要我重新推荐的吗？", true)
    | .CRITIC => (s1, true)

/-- `buildContext`: last `limit` history entries as `role: content` lines. -/
def buildContext (s : AgentState) (limit : Nat) : String :=
  String.intercalate "\n"
    ((s.history.drop (s.history.length - limit)).map fun m => m.role ++ ": " ++ m.content)

/-! Prompt templates, transcribed from the template literals of the source. -/

/-- The prompt built by `runProfiler`. -/
def profilerPrompt (userInput context : String) : String :=
  "\n      User Input: \"" ++ userInput ++ "\"\n      Conversation History:\n      " ++
    context ++
    "\n      \n      CRITICAL: You must ALWAYS output the ||PROFILE_READY|| marker after analyzing user\x27s response!\n      Format: First provide your response, then on a new line add: ||PROFILE_READY|| [keywords]\n      \n      Example output:\n      Your analysis and question...\n      \n      ||PROFILE_READY|| keyword1, keyword2, keyword3\n    "

/-- The prompt built by `runSpecialist`. -/
def specialistPrompt (userProfile userInput context : String) : String :=
  "\n        User Profile (Known): " ++ userProfile ++
    "\n        Current Input: \"" ++ userInput ++ "\"\n        History: " ++ context ++
    "\n      "

/-- The critic-step prompt built by `runCriticAndHost`. -/
def criticStepPrompt (userProfile currentDemand : String) : String :=
  "\n          User Profile: " ++ userProfile ++
    "\n          Current Request: " ++ currentDemand ++
    "\n          \n          Analyze and recommend 2 perfect movies. Return ONLY the JSON-like format as specified in your instructions.\n      "

/-- The host-step prompt built by `runCriticAndHost`. -/
def hostStepPrompt (recommendations userProfile currentDemand : String) : String :=
  "\n        Critic Recommendations:\n        " ++ recommendations ++
    "\n        \n        User Profile: " ++ userProfile ++
    "\n        User Request: " ++ currentDemand ++
    "\n        \n        Present these to the user warmly.\n      "

/-- The prompt built by `runHost` (HOST-stage turns). -/
def hostTurnPrompt (userInput context recommendations : String) : String :=
  "\n         User Input: " ++ userInput ++
    "\n         History: " ++ context ++
    "\n         Previous Recommendations: " ++ recommendations ++
    "\n         \n         Continue chatting, answer questions about the recommendation, or recommend something else if they hate it.\n      "

/-- The prompt library (src/agents/Prompts.ts, content not in scope): one
system-instruction string per stage. -/
structure Prompts where
  PROFILER : String
  SPECIALIST : String
  CRITIC : String
  HOST : String
deriving Repr, DecidableEq

/-- Observable side events of a turn, in order: agent-name notifications and
generation-client invocations (with the outbound requests each issued). -/
inductive Event
  | agentChange (name : String)
  | genCall (prompt : String) (systemInstruction : String) (requests : List GenRequest)
deriving Repr, DecidableEq

/-- The outbound requests carried by an event. -/
def eventRequests : Event → List GenRequest
  | .agentChange _ => []
  | .genCall _ _ reqs => reqs

/-- All outbound requests of an event list. -/
def requestsOf (evs : List Event) : List GenRequest :=
  (evs.map eventRequests).flatten

/-- The prompt of a generation-call event. -/
def eventPrompt : Event → Option String
  | .agentChange _ => none
  | .genCall p _ _ => some p

/-- Prompts of the generation calls of an event list, in order. -/
def genCallPrompts (evs : List Event) : List String :=
  evs.filterMap eventPrompt

/-- Behaviour of the generation client: call index within the turn (0 = the
stage's own call, 1 = critic, 2 = host), prompt, system instruction ↦
result and issued requests. -/
def Client : Type :=
  Nat → String → String → Except GenError String × List GenRequest

/-- A client that answers from an oracle and issues no modelled requests
(used to reason about the orchestrator independently of the HTTP layer). -/
def oracleClient (gen : Nat → Except GenError String) : Client :=
  fun i _ _ => (gen i, [])

/-- The real client: each orchestrator call invokes `callGemini` with the
stage prompt and system instruction; `net` gives each fetch's behaviour. -/
def geminiClient (apiKey model : String) (net : Nat → FetchResult) : Client :=
  fun i prompt sys => callGemini apiKey model prompt (some sys) (net i)

deriving instance DecidableEq for Except

/-- Result of one `processUserMessage` turn.  `stateR`, `eventsR` and
`outcome` describe the turn up to the point the returned promise settles;
`stateF` and `eventsF` additionally account for the detached
`runCriticAndHost` continuation, which `runSpecialist` starts without
awaiting and which finishes only after the promise has settled. -/
structure TurnResult where
  stateR : AgentState
  eventsR : List Event
  outcome : Except GenError Unit
  stateF : AgentState
  eventsF : List Event
deriving Repr, DecidableEq

/-- `runCriticAndHost`, split at its first suspension point: returns the
events emitted before the caller's promise settles (the critic request is
issued synchronously), the final state, and the events emitted afterwards.
A failing critic or host call rejects the detached promise unhandled: the
continuation simply stops. -/
def runCriticAndHost (prompts : Prompts) (client : Client) (s : AgentState) :
    List Event × AgentState × List Event :=
  let criticPrompt := criticStepPrompt s.userProfile s.currentDemand
  let criticCall := client 1 criticPrompt prompts.CRITIC
  let evSync : List Event :=
    [.agentChange "Critic Agent", .genCall criticPrompt prompts.CRITIC criticCall.2]
  match criticCall.1 with
  | .error _ => (evSync, s, [])
  | .ok criticResponse =>
    let s1 := transitionTo { s with recommendations := criticResponse } .HOST
    let hostPrompt := hostStepPrompt s1.recommendations s1.userProfile s1.currentDemand
    let hostCall := client 2 hostPrompt prompts.HOST
    let evAfter : List Event :=
      [.agentChange "Host Agent", .genCall hostPrompt prompts.HOST hostCall.2]
    match hostCall.1 with
    | .error _ => (evSync, s1, evAfter)
    | .ok hostResponse => (evSync, addAgentMessage s1 "Host" hostResponse, evAfter)

/-- `runProfiler`. -/
def runProfiler (prompts : Prompts) (client : Client) (s : AgentState)
    (userInput : String) : TurnResult :=
  let context := buildContext s 5
  let prompt := profilerPrompt userInput context
  let call := client 0 prompt prompts.PROFILER
  let ev : List Event := [.genCall prompt prompts.PROFILER call.2]
  match call.1 with
  | .error e => ⟨s, ev, .error e, s, []⟩
  | .ok response =>
    if strIncludes response "||PROFILE_READY||" then
      let markerIndex := (strIndexOf response "||PROFILE_READY||").getD 0
      let reply := strTrim (strTake response markerIndex)
      let profileData :=
        strTrim (strDrop response (markerIndex + "||PROFILE_READY||".length))
      let s1 := addAgentMessage { s with userProfile := profileData } "Profiler" reply
      let s2 := transitionTo s1 .SPECIALIST
      ⟨s2, ev, .ok (), s2, []⟩
    else
      let s1 := addAgentMessage s "Profiler" response
      ⟨s1, ev, .ok (), s1, []⟩

/-- `runSpecialist`.  In the marker branch the source invokes
`runCriticAndHost()` without `await`: the continuation past the critic
call's suspension runs after this turn's promise has settled. -/
def runSpecialist (prompts : Prompts) (client : Client) (s : AgentState)
    (userInput : String) : TurnResult :=
  let context := buildContext s 5
  let prompt := specialistPrompt s.userProfile userInput context
  let call := client 0 prompt prompts.SPECIALIST
  let ev : List Event := [.genCall prompt prompts.SPECIALIST call.2]
  match call.1 with
  | .error e => ⟨s, ev, .error e, s, []⟩
  | .ok response =>
    if strIncludes response "||DEMAND_LOCKED||" then
      let markerIndex := (strIndexOf response "||DEMAND_LOCKED||").getD 0
      let reply := strTrim (strTake response markerIndex)
      let demandData :=
        strTrim (strDrop response (markerIndex + "||DEMAND_LOCKED||".length))
      let s1 :=
        addAgentMessage { s with currentDemand := demandData } "Genre Specialist" reply
      let s2 := transitionTo s1 .CRITIC
      let rest := runCriticAndHost prompts client s2
      ⟨s2, ev ++ rest.1, .ok (), rest.2.1, rest.2.2⟩
    else
      let s1 := addAgentMessage s "Genre Specialist" response
      ⟨s1, ev, .ok (), s1, []⟩

/-- `runHost`. -/
def runHost (prompts : Prompts) (client : Client) (s : AgentState)
    (userInput : String) : TurnResult :=
  let context := buildContext s 5
  let prompt := hostTurnPrompt userInput context s.recommendations
  let call := client 0 prompt prompts.HOST
  let ev : List Event := [.genCall prompt prompts.HOST call.2]
  match call.1 with
  | .error e => ⟨s, ev, .error e, s, []⟩
  | .ok response =>
    let s1 := addAgentMessage s "Host" response
    ⟨s1, ev, .ok (), s1, []⟩

/-- `processUserMessage`: one turn.  Backward requests short-circuit before
the agent-name notification and before any stage logic; otherwise the
stage runner executes under a try/catch that, on rejection of the awaited
call, appends one system-named message and re-raises the original error. -/
def processUserMessage (prompts : Prompts) (client : Client) (s : AgentState)
    (userText : String) : TurnResult :=
  if isBackwardRequest userText then
    let s1 := (goBack s).1
    ⟨s1, [], .ok (), s1, []⟩
  else
    let ev0 : Event := .agentChange (getAgentName s.currentRole)
    let inner : TurnResult :=
      match s.currentRole with
      | .PROFILER => runProfiler prompts client s userText
      | .SPECIALIST => runSpecialist prompts client s userText
      | .CRITIC => ⟨s, [], .ok (), s, []⟩
      | .HOST => runHost prompts client s userText
    match inner.outcome with
    | .ok _ =>
      { inner with eventsR := ev0 :: inner.eventsR }
    | .error e =>
      let s1 := addSystemMessage inner.stateR
        ("错误: " ++ e.message ++ "。请检查您的 API Key 和网络连接。")
      ⟨s1, ev0 :: inner.eventsR, .error e, s1, inner.eventsF⟩

/-! ### Helper lemmas about substring containment -/

theorem isPrefixOf_append_self (p b : List Char) : p.isPrefixOf (p ++ b) = true := by
  induction p with
  | nil => simp [List.isPrefixOf]
  | cons c t ih => simp [List.isPrefixOf, ih]

theorem listIndexOf_isSome_of_isPrefixOf {pat s : List Char}
    (h : pat.isPrefixOf s = true) : (listIndexOf pat s).isSome = true := by
  cases s with
  | nil => simp [listIndexOf, h]
  | cons c t => simp [listIndexOf, h]

theorem listIndexOf_isSome_cons {pat s : List Char} (c : Char)
    (h : (listIndexOf pat s).isSome = true) :
    (listIndexOf pat (c :: s)).isSome = true := by
  simp only [listIndexOf]
  split
  · rfl
  · simpa using h

theorem listIndexOf_isSome_append {pat : List Char} (a : List Char) {s : List Char}
    (h : (listIndexOf pat s).isSome = true) :
    (listIndexOf pat (a ++ s)).isSome = true := by
  induction a with
  | nil => simpa using h
  | cons c t ih => simpa using listIndexOf_isSome_cons c ih

/-- A string includes its own leading part: `p ++ b` includes `p`. -/
theorem strIncludes_self_append (p b : String) : strIncludes (p ++ b) p = true := by
  unfold strIncludes strIndexOf
  rw [String.data_append]
  exact listIndexOf_isSome_of_isPrefixOf (isPrefixOf_append_self _ _)

/-- Prepending text preserves substring containment. -/
theorem strIncludes_prepend (a : String) {t p : String}
    (h : strIncludes t p = true) : strIncludes (a ++ t) p = true := by
  unfold strIncludes strIndexOf at h ⊢
  rw [String.data_append]
  exact listIndexOf_isSome_append a.data h

/-! ### Helper lemmas about the stage stack -/

theorem getLast?_eq_getLastD {α : Type} {l : List α} (h : l ≠ []) (d : α) :
    l.getLast? = some (l.getLastD d) := by
  rw [List.getLastD_eq_getLast?]
  obtain ⟨a, ha⟩ := Option.isSome_iff_exists.mp (List.getLast?_isSome.mpr h)
  simp [ha]

/-- The invariant: the current role is the top (last pushed element) of the
stage stack; in particular the stack is nonempty. -/
def stackInv (s : AgentState) : Prop :=
  s.stateHistory.getLast? = some s.currentRole

theorem stackInv_ne_nil {s : AgentState} (h : stackInv s) : s.stateHistory ≠ [] :=
  List.getLast?_isSome.mp (by simp [stackInv] at h; simp [h])

theorem stackInv_addAgentMessage {s : AgentState} (n c : String) (h : stackInv s) :
    stackInv (addAgentMessage s n c) := h

theorem stackInv_transitionTo (s : AgentState) (r : AgentRole) :
    stackInv (transitionTo s r) := by
  simp [stackInv, transitionTo]

theorem stackInv_goBack {s : AgentState} (h : stackInv s) :
    stackInv (goBack s).1 := by
  unfold goBack
  split
  · exact stackInv_addAgentMessage _ _ h
  · rename_i hlen
    have hd : s.stateHistory.dropLast ≠ [] := by
      have hlen' : 1 < s.stateHistory.length := by omega
      have := List.length_dropLast s.stateHistory
      intro he
      rw [he] at this
      simp at this
      omega
    have hkey : s.stateHistory.dropLast.getLast? =
        some (s.stateHistory.dropLast.getLastD .PROFILER) :=
      getLast?_eq_getLastD hd _
    rcases hrole : s.stateHistory.dropLast.getLastD AgentRole.PROFILER with _ | _ | _ | _ <;>
      simp only [hrole] <;>
      simp [stackInv, addAgentMessage, hrole ▸ hkey]

theorem stackInv_runCriticAndHost (prompts : Prompts) (client : Client)
    {s : AgentState} (h : stackInv s) :
    stackInv (runCriticAndHost prompts client s).2.1 := by
  unfold runCriticAndHost
  dsimp only
  split
  · exact h
  · split
    · exact stackInv_transitionTo _ _
    · exact stackInv_addAgentMessage _ _ (stackInv_transitionTo _ _)

theorem stackInv_runProfiler (prompts : Prompts) (client : Client)
    {s : AgentState} (u : String) (h : stackInv s) :
    stackInv (runProfiler prompts client s u).stateR ∧
    stackInv (runProfiler prompts client s u).stateF := by
  unfold runProfiler
  dsimp only
  split
  · exact ⟨h, h⟩
  · split
    · exact ⟨stackInv_transitionTo _ _, stackInv_transitionTo _ _⟩
    · exact ⟨stackInv_addAgentMessage _ _ h, stackInv_addAgentMessage _ _ h⟩

theorem stackInv_runSpecialist (prompts : Prompts) (client : Client)
    {s : AgentState} (u : String) (h : stackInv s) :
    stackInv (runSpecialist prompts client s u).stateR ∧
    stackInv (runSpecialist prompts client s u).stateF := by
  unfold runSpecialist
  dsimp only
  split
  · exact ⟨h, h⟩
  · split
    · exact ⟨stackInv_transitionTo _ _,
        stackInv_runCriticAndHost _ _ (stackInv_transitionTo _ _)⟩
    · exact ⟨stackInv_addAgentMessage _ _ h, stackInv_addAgentMessage _ _ h⟩

theorem stackInv_runHost (prompts : Prompts) (client : Client)
    {s : AgentState} (u : String) (h : stackInv s) :
    stackInv (runHost prompts client s u).stateR ∧
    stackInv (runHost prompts client s u).stateF := by
  unfold runHost
  dsimp only
  split
  · exact ⟨h, h⟩
  · exact ⟨stackInv_addAgentMessage _ _ h, stackInv_addAgentMessage _ _ h⟩

theorem stackInv_wrapTurn (name : String) (t : TurnResult)
    (h1 : stackInv t.stateR) (h2 : stackInv t.stateF) :
    stackInv (match t.outcome with
      | .ok _ => { t with eventsR := .agentChange name :: t.eventsR }
      | .error e => (⟨addSystemMessage t.stateR
          ("错误: " ++ e.message ++ "。请检查您的 API Key 和网络连接。"),
          .agentChange name :: t.eventsR, .error e,
          addSystemMessage t.stateR
          ("错误: " ++ e.message ++ "。请检查您的 API Key 和网络连接。"),
          t.eventsF⟩ : TurnResult)).stateR ∧
    stackInv (match t.outcome with
      | .ok _ => { t with eventsR := .agentChange name :: t.eventsR }
      | .error e => (⟨addSystemMessage t.stateR
          ("错误: " ++ e.message ++ "。请检查您的 API Key 和网络连接。"),
          .agentChange name :: t.eventsR, .error e,
          addSystemMessage t.stateR
          ("错误: " ++ e.message ++ "。请检查您的 API Key 和网络连接。"),
          t.eventsF⟩ : TurnResult)).stateF := by
  rcases ho : t.outcome with e | a
  · simp only [ho]
    exact ⟨stackInv_addAgentMessage _ _ h1, stackInv_addAgentMessage _ _ h1⟩
  · simp only [ho]
    exact ⟨h1, h2⟩

theorem stackInv_processUserMessage (prompts : Prompts) (client : Client)
    {s : AgentState} (u : String) (h : stackInv s) :
    stackInv (processUserMessage prompts client s u).stateR ∧
    stackInv (processUserMessage prompts client s u).stateF := by
  unfold processUserMessage
  split
  · exact ⟨stackInv_goBack h, stackInv_goBack h⟩
  · dsimp only
    cases hrole : s.currentRole with
    | PROFILER =>
      exact stackInv_wrapTurn _ _ (stackInv_runProfiler prompts client u h).1
        (stackInv_runProfiler prompts client u h).2
    | SPECIALIST =>
      exact stackInv_wrapTurn _ _ (stackInv_runSpecialist prompts client u h).1
        (stackInv_runSpecialist prompts client u h).2
    | CRITIC => exact stackInv_wrapTurn _ ⟨s, [], .ok (), s, []⟩ h h
    | HOST =>
      exact stackInv_wrapTurn _ _ (stackInv_runHost prompts client u h).1
        (stackInv_runHost prompts client u h).2

/-! ### Concrete fixtures used by witnesses and counterexamples -/

def samplePrompts : Prompts :=
  ⟨"SYS_PROFILER", "SYS_SPECIALIST", "SYS_CRITIC", "SYS_HOST"⟩

/-- Oracle: profiler-style response carrying the PROFILE_READY marker. -/
def profGen : Nat → Except GenError String
  | _ => .ok "好的！\n||PROFILE_READY|| 科幻, 悬疑, 烧脑"

/-- Oracle: specialist response carrying DEMAND_LOCKED, then critic and host
replies. -/
def lockGen : Nat → Except GenError String
  | 0 => .ok "ok ||DEMAND_LOCKED|| comedy"
  | 1 => .ok "rec"
  | _ => .ok "host msg"

/-- Oracle: every call fails. -/
def failGen : Nat → Except GenError String
  | _ => .error (.generic "boom")

/-- Oracle: plain responses with no marker. -/
def plainGen : Nat → Except GenError String
  | _ => .ok "tell me more"

def sampleSpecialistState : AgentState :=
  { currentRole := .SPECIALIST, userProfile := "p", currentDemand := "",
    recommendations := "", history := [], stateHistory := [.PROFILER, .SPECIALIST] }

def sampleHostState : AgentState :=
  { currentRole := .HOST, userProfile := "PPP", currentDemand := "DDD",
    recommendations := "RRR", history := [],
    stateHistory := [.PROFILER, .SPECIALIST, .CRITIC, .HOST] }

/-- A full SPECIALIST-marker turn on concrete inputs. -/
def compoundRun : TurnResult :=
  processUserMessage samplePrompts (oracleClient lockGen) sampleSpecialistState "XYZZY"

/-- The state reached once the compound turn's detached continuation has
finished. -/
def afterCompoundTurn : AgentState := compoundRun.stateF

/-! ### Claims -/

/-- C7: the orchestrator is constructed with `currentRole` equal to the top of
the stage stack; `setHistory` and `processUserMessage` (stage advances,
backward navigation, failures and the detached continuation included)
preserve this, and the stage stack never has fewer than one entry. -/
theorem C7_stack_invariant :
    (stackInv initialState ∧ initialState.stateHistory ≠ []) ∧
    (∀ s history, stackInv s →
      stackInv (setHistory s history) ∧ (setHistory s history).stateHistory ≠ []) ∧
    (∀ prompts client s userText, stackInv s →
      (stackInv (processUserMessage prompts client s userText).stateR ∧
        (processUserMessage prompts client s userText).stateR.stateHistory ≠ []) ∧
      (stackInv (processUserMessage prompts client s userText).stateF ∧
        (processUserMessage prompts client s userText).stateF.stateHistory ≠ [])) := by
  refine ⟨⟨by simp [stackInv, initialState], by simp [initialState]⟩, ?_, ?_⟩
  · intro s history hs
    exact ⟨hs, stackInv_ne_nil hs⟩
  · intro prompts client s userText hs
    obtain ⟨h1, h2⟩ := stackInv_processUserMessage prompts client userText hs
    exact ⟨⟨h1, stackInv_ne_nil h1⟩, h2, stackInv_ne_nil h2⟩

/-- Witness for C7 at concrete inputs: the invariant after a full compound
turn from a SPECIALIST state. -/
theorem C7_stack_invariant_witness :
    stackInv (processUserMessage samplePrompts (oracleClient lockGen)
        sampleSpecialistState "XYZZY").stateF ∧
    stackInv (setHistory initialState []) :=
  ⟨((C7_stack_invariant.2.2 samplePrompts (oracleClient lockGen)
      sampleSpecialistState "XYZZY" rfl).2).1,
    (C7_stack_invariant.2.1 initialState [] rfl).1⟩

/-- C10: a non-backward turn in the transient CRITIC stage resolves after the
agent-name notification alone: no generation call, no message, and the state
is untouched. -/
theorem C10_critic_stage_noop (prompts : Prompts) (client : Client)
    (s : AgentState) (userText : String)
    (hrole : s.currentRole = .CRITIC)
    (hback : isBackwardRequest userText = false) :
    processUserMessage prompts client s userText =
      ⟨s, [.agentChange "Critic"], .ok (), s, []⟩ := by
  simp [processUserMessage, hback, hrole, getAgentName]

/-- Witness for C10 at concrete inputs. -/
theorem C10_critic_stage_noop_witness :
    processUserMessage samplePrompts (oracleClient lockGen)
        { initialState with currentRole := .CRITIC } "hello" =
      ⟨{ initialState with currentRole := .CRITIC }, [.agentChange "Critic"], .ok (),
        { initialState with currentRole := .CRITIC }, []⟩ :=
  C10_critic_stage_noop _ _ _ _ rfl (by decide)

/-- C6: a backward-navigation request with a single-entry stage stack is
refused: one explanatory message is appended, every other state component is
unchanged, and no generation-client call (indeed no event) occurs. -/
theorem C6_backward_refused (prompts : Prompts) (client : Client)
    (s : AgentState) (userText : String)
    (hback : isBackwardRequest userText = true)
    (hlen : s.stateHistory.length = 1) :
    (processUserMessage prompts client s userText).stateR.currentRole = s.currentRole ∧
    (processUserMessage prompts client s userText).stateR.stateHistory = s.stateHistory ∧
    (processUserMessage prompts client s userText).stateR.userProfile = s.userProfile ∧
    (processUserMessage prompts client s userText).stateR.currentDemand = s.currentDemand ∧
    (processUserMessage prompts client s userText).stateR.recommendations =
      s.recommendations ∧
    (processUserMessage prompts client s userText).stateR.history = s.history ++
      [⟨"agent", "已经是第一步了，无法返回更早的阶段。", some "System"⟩] ∧
    (processUserMessage prompts client s userText).eventsR = [] ∧
    (processUserMessage prompts client s userText).eventsF = [] ∧
    (processUserMessage prompts client s userText).stateF =
      (processUserMessage prompts client s userText).stateR ∧
    (processUserMessage prompts client s userText).outcome = .ok () := by
  simp [processUserMessage, hback, goBack, hlen, addAgentMessage]

/-- Witness for C6 at concrete inputs. -/
theorem C6_backward_refused_witness :
    (processUserMessage samplePrompts (oracleClient lockGen) initialState
        "返回").stateR.history =
      [⟨"agent", "已经是第一步了，无法返回更早的阶段。", some "System"⟩] := by
  have h := C6_backward_refused samplePrompts (oracleClient lockGen) initialState
    "返回" (by decide) rfl
  simpa [initialState] using h.2.2.2.2.2.1

/-- C4: when the response of a user-facing stage lacks that stage's completion
marker, the stage does not advance and the full response is appended verbatim
as the visible agent reply (HOST has no marker and always replies verbatim);
`addAgentMessage` changes the history only, so the resulting equalities pin
every other state component, the stage included, to its old value. -/
theorem C4_no_marker_no_advance (prompts : Prompts)
    (gen : Nat → Except GenError String) (s : AgentState) (userText response : String)
    (hback : isBackwardRequest userText = false)
    (hgen : gen 0 = .ok response) :
    (s.currentRole = .PROFILER → strIncludes response "||PROFILE_READY||" = false →
      processUserMessage prompts (oracleClient gen) s userText =
        ⟨addAgentMessage s "Profiler" response,
          [.agentChange "Profiler",
            .genCall (profilerPrompt userText (buildContext s 5)) prompts.PROFILER []],
          .ok (), addAgentMessage s "Profiler" response, []⟩) ∧
    (s.currentRole = .SPECIALIST → strIncludes response "||DEMAND_LOCKED||" = false →
      processUserMessage prompts (oracleClient gen) s userText =
        ⟨addAgentMessage s "Genre Specialist" response,
          [.agentChange "Genre Specialist",
            .genCall (specialistPrompt s.userProfile userText (buildContext s 5))
              prompts.SPECIALIST []],
          .ok (), addAgentMessage s "Genre Specialist" response, []⟩) ∧
    (s.currentRole = .HOST →
      processUserMessage prompts (oracleClient gen) s userText =
        ⟨addAgentMessage s "Host" response,
          [.agentChange "Host",
            .genCall (hostTurnPrompt userText (buildContext s 5) s.recommendations)
              prompts.HOST []],
          .ok (), addAgentMessage s "Host" response, []⟩) := by
  refine ⟨?_, ?_, ?_⟩
  · intro hrole hmark
    simp [processUserMessage, hback, hrole, runProfiler, oracleClient, hgen, hmark,
      getAgentName]
  · intro hrole hmark
    simp [processUserMessage, hback, hrole, runSpecialist, oracleClient, hgen, hmark,
      getAgentName]
  · intro hrole
    simp [processUserMessage, hback, hrole, runHost, oracleClient, hgen, getAgentName]

/-- Witness for C4 at concrete inputs, one per user-facing stage. -/
theorem C4_no_marker_no_advance_witness :
    (processUserMessage samplePrompts (oracleClient plainGen) initialState
        "hi").stateR = addAgentMessage initialState "Profiler" "tell me more" ∧
    (processUserMessage samplePrompts (oracleClient plainGen) sampleSpecialistState
        "hi").stateR =
      addAgentMessage sampleSpecialistState "Genre Specialist" "tell me more" ∧
    (processUserMessage samplePrompts (oracleClient plainGen) sampleHostState
        "hi").stateR = addAgentMessage sampleHostState "Host" "tell me more" := by
  have h1 := C4_no_marker_no_advance samplePrompts plainGen initialState "hi"
    "tell me more" (by decide) rfl
  have h2 := C4_no_marker_no_advance samplePrompts plainGen sampleSpecialistState "hi"
    "tell me more" (by decide) rfl
  have h3 := C4_no_marker_no_advance samplePrompts plainGen sampleHostState "hi"
    "tell me more" (by decide) rfl
  refine ⟨?_, ?_, ?_⟩
  · rw [h1.1 rfl (by decide)]
  · rw [h2.2.1 rfl (by decide)]
  · rw [h3.2.2 rfl]

/-- C1: when the model response contains the awaiting stage's completion
marker, the orchestrator stores exactly the trimmed text after the first
marker occurrence as the stage payload, appends exactly the trimmed
pre-marker text as the visible agent reply, and advances one stage
(PROFILER → SPECIALIST); SPECIALIST advances two, to HOST via CRITIC, within
the same logical turn (the detached continuation included). -/
theorem C1_marker_extraction (prompts : Prompts)
    (gen : Nat → Except GenError String) (s : AgentState) (userText : String)
    (hback : isBackwardRequest userText = false) :
    (∀ response, s.currentRole = .PROFILER → gen 0 = .ok response →
      strIncludes response "||PROFILE_READY||" = true →
      (processUserMessage prompts (oracleClient gen) s userText).stateR.userProfile =
        strTrim (strDrop response
          ((strIndexOf response "||PROFILE_READY||").getD 0 +
            "||PROFILE_READY||".length)) ∧
      (processUserMessage prompts (oracleClient gen) s userText).stateR.history =
        s.history ++
          [⟨"agent",
            strTrim (strTake response ((strIndexOf response "||PROFILE_READY||").getD 0)),
            some "Profiler"⟩] ∧
      (processUserMessage prompts (oracleClient gen) s userText).stateR.currentRole =
        .SPECIALIST ∧
      (processUserMessage prompts (oracleClient gen) s userText).stateR.stateHistory =
        s.stateHistory ++ [.SPECIALIST] ∧
      (processUserMessage prompts (oracleClient gen) s userText).stateF =
        (processUserMessage prompts (oracleClient gen) s userText).stateR ∧
      (processUserMessage prompts (oracleClient gen) s userText).outcome = .ok ()) ∧
    (∀ response criticResp hostResp, s.currentRole = .SPECIALIST →
      gen 0 = .ok response → gen 1 = .ok criticResp → gen 2 = .ok hostResp →
      strIncludes response "||DEMAND_LOCKED||" = true →
      (processUserMessage prompts (oracleClient gen) s userText).stateR.currentDemand =
        strTrim (strDrop response
          ((strIndexOf response "||DEMAND_LOCKED||").getD 0 +
            "||DEMAND_LOCKED||".length)) ∧
      (processUserMessage prompts (oracleClient gen) s userText).stateR.history =
        s.history ++
          [⟨"agent",
            strTrim (strTake response ((strIndexOf response "||DEMAND_LOCKED||").getD 0)),
            some "Genre Specialist"⟩] ∧
      (processUserMessage prompts (oracleClient gen) s userText).stateR.currentRole =
        .CRITIC ∧
      (processUserMessage prompts (oracleClient gen) s userText).stateF.currentRole =
        .HOST ∧
      (processUserMessage prompts (oracleClient gen) s userText).stateF.stateHistory =
        s.stateHistory ++ [.CRITIC, .HOST] ∧
      (processUserMessage prompts (oracleClient gen) s userText).outcome = .ok ()) := by
  constructor
  · intro response hrole hgen hmark
    simp [processUserMessage, hback, hrole, runProfiler, oracleClient, hgen, hmark,
      getAgentName, addAgentMessage, transitionTo]
  · intro response criticResp hostResp hrole hgen hcrit hhost hmark
    simp [processUserMessage, hback, hrole, runSpecialist, runCriticAndHost,
      oracleClient, hgen, hcrit, hhost, hmark, getAgentName, addAgentMessage,
      transitionTo]

/-- Witness for C1 at concrete inputs: one profiler turn and one specialist
compound turn. -/
theorem C1_marker_extraction_witness :
    (processUserMessage samplePrompts (oracleClient profGen) initialState
        "我喜欢盗梦空间").stateR.userProfile = "科幻, 悬疑, 烧脑" ∧
    (processUserMessage samplePrompts (oracleClient profGen) initialState
        "我喜欢盗梦空间").stateR.currentRole = .SPECIALIST ∧
    compoundRun.stateR.currentDemand = "comedy" ∧
    compoundRun.stateF.currentRole = .HOST := by
  have h1 := (C1_marker_extraction samplePrompts profGen initialState "我喜欢盗梦空间"
    (by decide)).1 "好的！\n||PROFILE_READY|| 科幻, 悬疑, 烧脑" rfl rfl (by decide)
  have h2 := (C1_marker_extraction samplePrompts lockGen sampleSpecialistState "XYZZY"
    (by decide)).2 "ok ||DEMAND_LOCKED|| comedy" "rec" "host msg" rfl rfl rfl rfl
    (by decide)
  exact ⟨h1.1.trans (by decide), h1.2.2.1, h2.1.trans (by decide), h2.2.2.2.1⟩

set_option maxRecDepth 4096 in
/-- Counterexample to C2 as stated: in a concrete SPECIALIST turn whose
response carries the DEMAND_LOCKED marker, the stage at the moment the
`processUserMessage` promise resolves is CRITIC, not HOST, and the host
generation call (with its agent-name notification) happens only after the
promise has resolved — `runCriticAndHost` is started without `await`. -/
theorem C2_counterexample :
    compoundRun.stateR.currentRole = .CRITIC ∧
    (compoundRun.stateR.currentRole = .HOST → False) ∧
    compoundRun.eventsF =
      [.agentChange "Host Agent",
        .genCall (hostStepPrompt "rec" "p" "comedy") samplePrompts.HOST []] := by
  decide

/-- C2 amended: when the SPECIALIST response carries the DEMAND_LOCKED
marker, the critic call is issued (after the specialist call) before the
promise resolves and the host call strictly afterwards, sequentially — the
host call only once the critic result is available; the stage at resolution
is CRITIC, and the detached continuation ends (with both calls succeeding)
at stage HOST. -/
theorem C2_compound_turn_sequencing (prompts : Prompts)
    (gen : Nat → Except GenError String) (s : AgentState)
    (userText response criticResp hostResp : String)
    (hback : isBackwardRequest userText = false)
    (hrole : s.currentRole = .SPECIALIST)
    (hgen : gen 0 = .ok response)
    (hcrit : gen 1 = .ok criticResp)
    (hhost : gen 2 = .ok hostResp)
    (hmark : strIncludes response "||DEMAND_LOCKED||" = true) :
    (processUserMessage prompts (oracleClient gen) s userText).eventsR =
      [.agentChange "Genre Specialist",
        .genCall (specialistPrompt s.userProfile userText (buildContext s 5))
          prompts.SPECIALIST [],
        .agentChange "Critic Agent",
        .genCall (criticStepPrompt s.userProfile
            (strTrim (strDrop response
              ((strIndexOf response "||DEMAND_LOCKED||").getD 0 +
                "||DEMAND_LOCKED||".length))))
          prompts.CRITIC []] ∧
    (processUserMessage prompts (oracleClient gen) s userText).eventsF =
      [.agentChange "Host Agent",
        .genCall (hostStepPrompt criticResp s.userProfile
            (strTrim (strDrop response
              ((strIndexOf response "||DEMAND_LOCKED||").getD 0 +
                "||DEMAND_LOCKED||".length))))
          prompts.HOST []] ∧
    (processUserMessage prompts (oracleClient gen) s userText).stateR.currentRole =
      .CRITIC ∧
    (processUserMessage prompts (oracleClient gen) s userText).stateF.currentRole =
      .HOST ∧
    (processUserMessage prompts (oracleClient gen) s userText).outcome = .ok () := by
  simp [processUserMessage, hback, hrole, runSpecialist, runCriticAndHost,
    oracleClient, hgen, hcrit, hhost, hmark, getAgentName, addAgentMessage,
    transitionTo]

/-- Witness for the amended C2 at concrete inputs. -/
theorem C2_compound_turn_sequencing_witness :
    compoundRun.stateR.currentRole = .CRITIC ∧
    compoundRun.stateF.currentRole = .HOST := by
  have h := C2_compound_turn_sequencing samplePrompts lockGen sampleSpecialistState
    "XYZZY" "ok ||DEMAND_LOCKED|| comedy" "rec" "host msg" (by decide) rfl rfl rfl
    rfl (by decide)
  exact ⟨h.2.2.1, h.2.2.2.1⟩

/-- Counterexample to C3 as stated: the message appended on a failing
generation call has role "agent" (with agent display name "System"), not
role "system" — `addSystemMessage` delegates to `addAgentMessage`. -/
theorem C3_counterexample :
    (processUserMessage samplePrompts (oracleClient failGen) initialState
        "hi").stateR.history =
      [⟨"agent", "错误: boom。请检查您的 API Key 和网络连接。", some "System"⟩] ∧
    (("agent" : String) = "system" → False) := by
  decide

/-- C3 amended: when the stage's awaited generation call fails, the turn
leaves `currentRole` and the stage stack at their pre-call values, appends
exactly one agent-role message attributed to "System" describing the error,
and re-raises the original failure; a failure of the detached critic or host
call is not caught — the turn has already resolved successfully, no message
is appended and nothing is re-raised, the state staying at its pre-failure
stage: CRITIC when the critic call fails, HOST (with the critic's
recommendations stored) when the host call fails. -/
theorem C3_failure_handling (prompts : Prompts)
    (gen : Nat → Except GenError String) (s : AgentState) (userText : String)
    (hback : isBackwardRequest userText = false) :
    (∀ e, gen 0 = .error e → s.currentRole ≠ .CRITIC →
      (processUserMessage prompts (oracleClient gen) s userText).stateR =
        addAgentMessage s "System"
          ("错误: " ++ e.message ++ "。请检查您的 API Key 和网络连接。") ∧
      (processUserMessage prompts (oracleClient gen) s userText).stateR.currentRole =
        s.currentRole ∧
      (processUserMessage prompts (oracleClient gen) s userText).stateR.stateHistory =
        s.stateHistory ∧
      (processUserMessage prompts (oracleClient gen) s userText).outcome = .error e ∧
      (processUserMessage prompts (oracleClient gen) s userText).stateF =
        (processUserMessage prompts (oracleClient gen) s userText).stateR) ∧
    (∀ response e, s.currentRole = .SPECIALIST → gen 0 = .ok response →
      strIncludes response "||DEMAND_LOCKED||" = true → gen 1 = .error e →
      (processUserMessage prompts (oracleClient gen) s userText).outcome = .ok () ∧
      (processUserMessage prompts (oracleClient gen) s userText).stateF =
        (processUserMessage prompts (oracleClient gen) s userText).stateR ∧
      (processUserMessage prompts (oracleClient gen) s userText).stateF.currentRole =
        .CRITIC ∧
      (processUserMessage prompts (oracleClient gen) s userText).eventsF = []) ∧
    (∀ response criticResp e, s.currentRole = .SPECIALIST → gen 0 = .ok response →
      strIncludes response "||DEMAND_LOCKED||" = true → gen 1 = .ok criticResp →
      gen 2 = .error e →
      (processUserMessage prompts (oracleClient gen) s userText).outcome = .ok () ∧
      (processUserMessage prompts (oracleClient gen) s userText).stateF.currentRole =
        .HOST ∧
      (processUserMessage prompts (oracleClient gen) s
        userText).stateF.recommendations = criticResp ∧
      (processUserMessage prompts (oracleClient gen) s userText).stateF.history =
        (processUserMessage prompts (oracleClient gen) s userText).stateR.history ∧
      (processUserMessage prompts (oracleClient gen) s
        userText).stateF.stateHistory = s.stateHistory ++ [.CRITIC, .HOST]) := by
  refine ⟨?_, ?_, ?_⟩
  · intro e hgen hnotcritic
    cases hrole : s.currentRole with
    | CRITIC => exact absurd hrole hnotcritic
    | PROFILER =>
      simp [processUserMessage, hback, hrole, runProfiler, oracleClient, hgen,
        addSystemMessage, addAgentMessage, getAgentName]
    | SPECIALIST =>
      simp [processUserMessage, hback, hrole, runSpecialist, oracleClient, hgen,
        addSystemMessage, addAgentMessage, getAgentName]
    | HOST =>
      simp [processUserMessage, hback, hrole, runHost, oracleClient, hgen,
        addSystemMessage, addAgentMessage, getAgentName]
  · intro response e hrole hgen hmark hcrit
    simp [processUserMessage, hback, hrole, runSpecialist, runCriticAndHost,
      oracleClient, hgen, hcrit, hmark, getAgentName, addAgentMessage, transitionTo]
  · intro response criticResp e hrole hgen hmark hcrit hhost
    simp [processUserMessage, hback, hrole, runSpecialist, runCriticAndHost,
      oracleClient, hgen, hcrit, hhost, hmark, getAgentName, addAgentMessage,
      transitionTo]

/-- Oracle: specialist response locks the demand, the critic call then
fails. -/
def lockCriticFailGen : Nat → Except GenError String
  | 0 => .ok "ok ||DEMAND_LOCKED|| comedy"
  | _ => .error (.generic "net down")

/-- Oracle: specialist response locks the demand, the critic call succeeds,
the host call then fails. -/
def lockHostFailGen : Nat → Except GenError String
  | 0 => .ok "ok ||DEMAND_LOCKED|| comedy"
  | 1 => .ok "rec"
  | _ => .error (.generic "host down")

/-- Witness for the amended C3 at concrete inputs: an awaited failure, a
detached critic failure, and a detached host failure. -/
theorem C3_failure_handling_witness :
    (processUserMessage samplePrompts (oracleClient failGen) initialState
        "hi").outcome = .error (.generic "boom") ∧
    (processUserMessage samplePrompts (oracleClient lockCriticFailGen)
        sampleSpecialistState "hi").outcome = .ok () ∧
    (processUserMessage samplePrompts (oracleClient lockHostFailGen)
        sampleSpecialistState "hi").stateF.currentRole = .HOST := by
  have h1 := (C3_failure_handling samplePrompts failGen initialState "hi"
    (by decide)).1 (.generic "boom") rfl (by decide)
  have h2 := (C3_failure_handling samplePrompts lockCriticFailGen
    sampleSpecialistState "hi" (by decide)).2.1 "ok ||DEMAND_LOCKED|| comedy"
    (.generic "net down") rfl rfl (by decide) rfl
  have h3 := (C3_failure_handling samplePrompts lockHostFailGen
    sampleSpecialistState "hi" (by decide)).2.2 "ok ||DEMAND_LOCKED|| comedy"
    "rec" (.generic "host down") rfl rfl (by decide) rfl rfl
  exact ⟨h1.2.2.2.1, h2.1, h3.2.1⟩

/-- Counterexample to C5 as stated: from the reachable state left by a
completed compound turn (stage stack PROFILER, SPECIALIST, CRITIC, HOST), a
backward request pops to destination CRITIC and emits no message at all,
while the claim asserts one stage-appropriate message is emitted. -/
theorem C5_counterexample :
    isBackwardRequest "返回" = true ∧
    afterCompoundTurn.stateHistory =
      [.PROFILER, .SPECIALIST, .CRITIC, .HOST] ∧
    (processUserMessage samplePrompts (oracleClient lockGen) afterCompoundTurn
        "返回").stateR.stateHistory = [.PROFILER, .SPECIALIST, .CRITIC] ∧
    (processUserMessage samplePrompts (oracleClient lockGen) afterCompoundTurn
        "返回").stateR.currentRole = .CRITIC ∧
    (processUserMessage samplePrompts (oracleClient lockGen) afterCompoundTurn
        "返回").stateR.history = afterCompoundTurn.history := by
  decide

/-- C5 amended: a backward request with stack depth above one pops exactly
one level, makes the new top current, clears exactly the fields specified
for the destination (profile, demand and recommendations for PROFILER;
demand and recommendations for SPECIALIST; nothing for HOST or CRITIC),
emits one stage-appropriate message when the destination is PROFILER,
SPECIALIST or HOST and none when it is CRITIC, and issues no
generation-client call (indeed no event) that turn. -/
theorem C5_backward_navigation (prompts : Prompts) (client : Client)
    (s : AgentState) (userText : String)
    (hback : isBackwardRequest userText = true)
    (hlen : 1 < s.stateHistory.length) :
    (processUserMessage prompts client s userText).stateR.stateHistory =
      s.stateHistory.dropLast ∧
    (processUserMessage prompts client s userText).stateR.currentRole =
      s.stateHistory.dropLast.getLastD .PROFILER ∧
    (s.stateHistory.dropLast.getLastD .PROFILER = .PROFILER →
      (processUserMessage prompts client s userText).stateR.userProfile = "" ∧
      (processUserMessage prompts client s userText).stateR.currentDemand = "" ∧
      (processUserMessage prompts client s userText).stateR.recommendations = "" ∧
      (processUserMessage prompts client s userText).stateR.history = s.history ++
        [⟨"agent", "好的，让我们重新开始。请告诉我您最喜欢的三部电影？", some "Profiler"⟩]) ∧
    (s.stateHistory.dropLast.getLastD .PROFILER = .SPECIALIST →
      (processUserMessage prompts client s userText).stateR.userProfile =
        s.userProfile ∧
      (processUserMessage prompts client s userText).stateR.currentDemand = "" ∧
      (processUserMessage prompts client s userText).stateR.recommendations = "" ∧
      (processUserMessage prompts client s userText).stateR.history = s.history ++
        [⟨"agent", "明白，让我们重新确认。您今天想看什么类型的电影？刺激的、感动的还是轻松的？",
          some "Genre Specialist"⟩]) ∧
    (s.stateHistory.dropLast.getLastD .PROFILER = .HOST →
      (processUserMessage prompts client s userText).stateR.userProfile =
        s.userProfile ∧
      (processUserMessage prompts client s userText).stateR.currentDemand =
        s.currentDemand ∧
      (processUserMessage prompts client s userText).stateR.recommendations =
        s.recommendations ∧
      (processUserMessage prompts client s userText).stateR.history = s.history ++
        [⟨"agent", "好的，有什么需要我重新推荐的吗？", some "Host"⟩]) ∧
    (s.stateHistory.dropLast.getLastD .PROFILER = .CRITIC →
      (processUserMessage prompts client s userText).stateR.userProfile =
        s.userProfile ∧
      (processUserMessage prompts client s userText).stateR.currentDemand =
        s.currentDemand ∧
      (processUserMessage prompts client s userText).stateR.recommendations =
        s.recommendations ∧
      (processUserMessage prompts client s userText).stateR.history = s.history) ∧
    (processUserMessage prompts client s userText).eventsR = [] ∧
    (processUserMessage prompts client s userText).eventsF = [] ∧
    (processUserMessage prompts client s userText).stateF =
      (processUserMessage prompts client s userText).stateR ∧
    (processUserMessage prompts client s userText).outcome = .ok () := by
  have hg : ¬ s.stateHistory.length ≤ 1 := by omega
  rcases hd : s.stateHistory.dropLast.getLast?.getD AgentRole.PROFILER with _ | _ | _ | _ <;>
    simp [processUserMessage, hback, goBack, hg, List.getLastD_eq_getLast?, hd,
      addAgentMessage]

/-- Witness for the amended C5 at concrete inputs: backing out of the
SPECIALIST stage to PROFILER. -/
theorem C5_backward_navigation_witness :
    (processUserMessage samplePrompts (oracleClient lockGen) sampleSpecialistState
        "返回").stateR.stateHistory = [.PROFILER] ∧
    (processUserMessage samplePrompts (oracleClient lockGen) sampleSpecialistState
        "返回").stateR.userProfile = "" := by
  have h := C5_backward_navigation samplePrompts (oracleClient lockGen)
    sampleSpecialistState "返回" (by decide) (by decide)
  exact ⟨h.1.trans (by decide), (h.2.2.1 (by decide)).1⟩

/-- The source guard `!apiKey || apiKey.trim() === ''` is equivalent to the
trimmed credential being empty. -/
theorem blank_guard_iff (apiKey : String) :
    (apiKey = "" ∨ strTrim apiKey = "") ↔ strTrim apiKey = "" := by
  constructor
  · rintro (rfl | h)
    · rfl
    · exact h
  · exact Or.inr

/-- With a blank credential every client call fails with the configuration
error and issues no request. -/
theorem geminiClient_blank {apiKey : String} (model : String)
    (net : Nat → FetchResult) (h : strTrim apiKey = "") (i : Nat) (p sy : String) :
    geminiClient apiKey model net i p sy =
      (.error (.config "API key is empty or missing"), []) := by
  simp [geminiClient, callGemini, h]

/-- C8: `callGemini` fails with the configuration error exactly when the
credential is empty or whitespace, and then issues no request; otherwise it
issues exactly one outbound request and never a configuration error, failing
with an API error carrying status/statusText/body on a non-success HTTP
status, with a protocol error when no candidate is present, returning the
first candidate's text otherwise, and normalizing any other thrown value;
consequently a turn run with a blank credential issues no request and (in
any stage that calls the client) rejects with the configuration error. -/
theorem C8_callGemini_contract (apiKey model prompt : String)
    (sys : Option String) (net : FetchResult) :
    (strTrim apiKey = "" →
      callGemini apiKey model prompt sys net =
        (.error (.config "API key is empty or missing"), [])) ∧
    (strTrim apiKey ≠ "" →
      (callGemini apiKey model prompt sys net).2 =
        [⟨geminiUrl model apiKey, prompt, sys⟩] ∧
      (∀ m, (callGemini apiKey model prompt sys net).1 ≠ .error (.config m)) ∧
      (∀ hr, net = .resp hr → hr.ok = false →
        (callGemini apiKey model prompt sys net).1 =
          .error (.api hr.status hr.statusText hr.bodyText)) ∧
      (∀ hr, net = .resp hr → hr.ok = true →
        (hr.candidates = none ∨ hr.candidates = some []) →
        (callGemini apiKey model prompt sys net).1 =
          .error (.protocol "No candidates returned from API")) ∧
      (∀ hr t ts, net = .resp hr → hr.ok = true → hr.candidates = some (t :: ts) →
        (callGemini apiKey model prompt sys net).1 = .ok t) ∧
      (∀ b m, net = .thrown b m →
        (callGemini apiKey model prompt sys net).1 =
          .error (.generic
            (if b then m else "Unknown error occurred during API call")))) ∧
    (∀ prompts s userText netf, strTrim apiKey = "" →
      isBackwardRequest userText = false →
      requestsOf (processUserMessage prompts (geminiClient apiKey model netf) s
        userText).eventsR = [] ∧
      requestsOf (processUserMessage prompts (geminiClient apiKey model netf) s
        userText).eventsF = [] ∧
      (s.currentRole ≠ .CRITIC →
        (processUserMessage prompts (geminiClient apiKey model netf) s
          userText).outcome = .error (.config "API key is empty or missing"))) := by
  refine ⟨?_, ?_, ?_⟩
  · intro h
    simp [callGemini, h]
  · intro h
    have hne : ¬ (apiKey = "" ∨ strTrim apiKey = "") := fun hc =>
      h ((blank_guard_iff apiKey).mp hc)
    refine ⟨?_, ?_, ?_, ?_, ?_, ?_⟩
    · rcases net with hr | ⟨b, m⟩
      · cases hok : hr.ok
        · simp [callGemini, hne, hok]
        · rcases hc : hr.candidates with _ | ⟨_ | ⟨t, ts⟩⟩ <;>
            simp [callGemini, hne, hok, hc]
      · simp [callGemini, hne]
    · intro m
      rcases net with hr | ⟨b, m'⟩
      · cases hok : hr.ok
        · simp [callGemini, hne, hok]
        · rcases hc : hr.candidates with _ | ⟨_ | ⟨t, ts⟩⟩ <;>
            simp [callGemini, hne, hok, hc]
      · simp [callGemini, hne]
    · rintro hr rfl hok
      simp [callGemini, hne, hok]
    · rintro hr rfl hok (hc | hc) <;> simp [callGemini, hne, hok, hc]
    · rintro hr t ts rfl hok hc
      simp [callGemini, hne, hok, hc]
    · rintro b m rfl
      simp [callGemini, hne]
  · intro prompts s userText netf hblank hback
    have hc := geminiClient_blank model netf hblank
    cases hrole : s.currentRole with
    | PROFILER =>
      simp [processUserMessage, hback, hrole, runProfiler, hc, requestsOf,
        eventRequests, getAgentName, addSystemMessage]
    | SPECIALIST =>
      simp [processUserMessage, hback, hrole, runSpecialist, hc, requestsOf,
        eventRequests, getAgentName, addSystemMessage]
    | CRITIC =>
      simp [processUserMessage, hback, hrole, requestsOf, eventRequests,
        getAgentName]
    | HOST =>
      simp [processUserMessage, hback, hrole, runHost, hc, requestsOf,
        eventRequests, getAgentName, addSystemMessage]

/-- Witness for C8 at concrete inputs: blank key, success, API error, and the
orchestrator-level blank-credential failure. -/
theorem C8_callGemini_contract_witness :
    callGemini "" "m" "p" none (.resp ⟨true, 200, "OK", "", some ["hi"]⟩) =
      (.error (.config "API key is empty or missing"), []) ∧
    (callGemini "k" "m" "p" none (.resp ⟨true, 200, "OK", "", some ["hi"]⟩)).1 =
      .ok "hi" ∧
    (callGemini "k" "m" "p" none (.resp ⟨false, 500, "ERR", "body", none⟩)).1 =
      .error (.api 500 "ERR" "body") ∧
    (processUserMessage samplePrompts
        (geminiClient "" "m" fun _ => .resp ⟨true, 200, "OK", "", some ["hi"]⟩)
        initialState "hi").outcome =
      .error (.config "API key is empty or missing") := by
  have h1 := (C8_callGemini_contract "" "m" "p" none
    (.resp ⟨true, 200, "OK", "", some ["hi"]⟩)).1 rfl
  have h2 := ((C8_callGemini_contract "k" "m" "p" none
    (.resp ⟨true, 200, "OK", "", some ["hi"]⟩)).2.1
    (by decide)).2.2.2.2.1 _ "hi" [] rfl rfl rfl
  have h3 := ((C8_callGemini_contract "k" "m" "p" none
    (.resp ⟨false, 500, "ERR", "body", none⟩)).2.1 (by decide)).2.2.1 _ rfl rfl
  have h4 := ((C8_callGemini_contract "" "m" "p" none
    (.resp ⟨true, 200, "OK", "", some ["hi"]⟩)).2.2 samplePrompts initialState "hi"
    (fun _ => .resp ⟨true, 200, "OK", "", some ["hi"]⟩) rfl (by decide)).2.2
    (by decide)
  exact ⟨h1, h2, h3, h4⟩

/-- HOST-stage turn on concrete inputs (profile "PPP", demand "DDD",
recommendations "RRR"). -/
def hostRun : TurnResult :=
  processUserMessage samplePrompts (oracleClient plainGen) sampleHostState "hello"

set_option maxRecDepth 16384 in
/-- Counterexample to C9 as stated: in the concrete compound turn whose raw
user input is "XYZZY", the critic-step generation call's prompt does not
embed the user input, and in a HOST-stage turn the prompt embeds neither the
stored profile "PPP" nor the demand "DDD". -/
theorem C9_counterexample :
    (genCallPrompts compoundRun.eventsR).length = 2 ∧
    strIncludes ((genCallPrompts compoundRun.eventsR).getD 1 "") "XYZZY" = false ∧
    strIncludes ((genCallPrompts hostRun.eventsR).getD 0 "") "PPP" = false ∧
    strIncludes ((genCallPrompts hostRun.eventsR).getD 0 "") "DDD" = false := by
  decide

/-- C9 amended: the PROFILER, SPECIALIST and HOST turn prompts embed the raw
user input and the trailing five-entry history window (`buildContext`, which
formats entries as `role: content` lines); the SPECIALIST prompt also embeds
the stored profile; the critic-step prompt embeds profile and demand (but
neither user input nor history); the compound host-step prompt embeds
recommendations, profile and demand (but neither user input nor history);
the HOST turn prompt embeds the recommendations (but not profile or demand).
The per-turn conjuncts identify the prompt actually passed to the client. -/
theorem C9_prompt_content (prompts : Prompts)
    (gen : Nat → Except GenError String) (s : AgentState)
    (userText userInput context profile demand recommendations : String)
    (hback : isBackwardRequest userText = false) :
    (strIncludes (profilerPrompt userInput context) userInput = true ∧
      strIncludes (profilerPrompt userInput context) context = true) ∧
    (strIncludes (specialistPrompt profile userInput context) profile = true ∧
      strIncludes (specialistPrompt profile userInput context) userInput = true ∧
      strIncludes (specialistPrompt profile userInput context) context = true) ∧
    (strIncludes (criticStepPrompt profile demand) profile = true ∧
      strIncludes (criticStepPrompt profile demand) demand = true) ∧
    (strIncludes (hostStepPrompt recommendations profile demand) recommendations =
        true ∧
      strIncludes (hostStepPrompt recommendations profile demand) profile = true ∧
      strIncludes (hostStepPrompt recommendations profile demand) demand = true) ∧
    (strIncludes (hostTurnPrompt userInput context recommendations) userInput = true ∧
      strIncludes (hostTurnPrompt userInput context recommendations) context = true ∧
      strIncludes (hostTurnPrompt userInput context recommendations) recommendations
        = true) ∧
    (s.currentRole = .PROFILER →
      (genCallPrompts (processUserMessage prompts (oracleClient gen) s
          userText).eventsR).head? =
        some (profilerPrompt userText (buildContext s 5))) ∧
    (s.currentRole = .SPECIALIST →
      (genCallPrompts (processUserMessage prompts (oracleClient gen) s
          userText).eventsR).head? =
        some (specialistPrompt s.userProfile userText (buildContext s 5))) ∧
    (s.currentRole = .HOST →
      (genCallPrompts (processUserMessage prompts (oracleClient gen) s
          userText).eventsR).head? =
        some (hostTurnPrompt userText (buildContext s 5) s.recommendations)) := by
  refine ⟨⟨?_, ?_⟩, ⟨?_, ?_, ?_⟩, ⟨?_, ?_⟩, ⟨?_, ?_, ?_⟩, ⟨?_, ?_, ?_⟩, ?_, ?_, ?_⟩
  · simp only [profilerPrompt, String.append_assoc]
    exact strIncludes_prepend _ (strIncludes_self_append _ _)
  · simp only [profilerPrompt, String.append_assoc]
    exact strIncludes_prepend _ (strIncludes_prepend _ (strIncludes_prepend _
      (strIncludes_self_append _ _)))
  · simp only [specialistPrompt, String.append_assoc]
    exact strIncludes_prepend _ (strIncludes_self_append _ _)
  · simp only [specialistPrompt, String.append_assoc]
    exact strIncludes_prepend _ (strIncludes_prepend _ (strIncludes_prepend _
      (strIncludes_self_append _ _)))
  · simp only [specialistPrompt, String.append_assoc]
    exact strIncludes_prepend _ (strIncludes_prepend _ (strIncludes_prepend _
      (strIncludes_prepend _ (strIncludes_prepend _ (strIncludes_self_append _ _)))))
  · simp only [criticStepPrompt, String.append_assoc]
    exact strIncludes_prepend _ (strIncludes_self_append _ _)
  · simp only [criticStepPrompt, String.append_assoc]
    exact strIncludes_prepend _ (strIncludes_prepend _ (strIncludes_prepend _
      (strIncludes_self_append _ _)))
  · simp only [hostStepPrompt, String.append_assoc]
    exact strIncludes_prepend _ (strIncludes_self_append _ _)
  · simp only [hostStepPrompt, String.append_assoc]
    exact strIncludes_prepend _ (strIncludes_prepend _ (strIncludes_prepend _
      (strIncludes_self_append _ _)))
  · simp only [hostStepPrompt, String.append_assoc]
    exact strIncludes_prepend _ (strIncludes_prepend _ (strIncludes_prepend _
      (strIncludes_prepend _ (strIncludes_prepend _ (strIncludes_self_append _ _)))))
  · simp only [hostTurnPrompt, String.append_assoc]
    exact strIncludes_prepend _ (strIncludes_self_append _ _)
  · simp only [hostTurnPrompt, String.append_assoc]
    exact strIncludes_prepend _ (strIncludes_prepend _ (strIncludes_prepend _
      (strIncludes_self_append _ _)))
  · simp only [hostTurnPrompt, String.append_assoc]
    exact strIncludes_prepend _ (strIncludes_prepend _ (strIncludes_prepend _
      (strIncludes_prepend _ (strIncludes_prepend _ (strIncludes_self_append _ _)))))
  · intro hrole
    rcases hg : gen 0 with e | response
    · simp [processUserMessage, hback, hrole, runProfiler, oracleClient, hg,
        genCallPrompts, eventPrompt, getAgentName]
    · cases hm : strIncludes response "||PROFILE_READY||" <;>
        simp [processUserMessage, hback, hrole, runProfiler, oracleClient, hg, hm,
          genCallPrompts, eventPrompt, getAgentName]
  · intro hrole
    rcases hg : gen 0 with e | response
    · simp [processUserMessage, hback, hrole, runSpecialist, oracleClient, hg,
        genCallPrompts, eventPrompt, getAgentName]
    · cases hm : strIncludes response "||DEMAND_LOCKED||"
      · simp [processUserMessage, hback, hrole, runSpecialist, oracleClient, hg, hm,
          genCallPrompts, eventPrompt, getAgentName]
      · rcases hcrit : gen 1 with e1 | c <;>
          [skip; rcases hhost : gen 2 with e2 | ho] <;>
          simp [processUserMessage, hback, hrole, runSpecialist, runCriticAndHost,
            oracleClient, hg, hm, hcrit, genCallPrompts, eventPrompt, getAgentName]
  · intro hrole
    rcases hg : gen 0 with e | response <;>
      simp [processUserMessage, hback, hrole, runHost, oracleClient, hg,
        genCallPrompts, eventPrompt, getAgentName]

/-- Witness for the amended C9 at concrete inputs. -/
theorem C9_prompt_content_witness :
    strIncludes (criticStepPrompt "p" "comedy") "comedy" = true ∧
    (genCallPrompts hostRun.eventsR).head? =
      some (hostTurnPrompt "hello" "" "RRR") := by
  have h := C9_prompt_content samplePrompts plainGen sampleHostState "hello" "u" "c"
    "p" "comedy" "r" (by decide)
  refine ⟨h.2.2.1.2, ?_⟩
  have h2 := h.2.2.2.2.2.2.2 rfl
  simpa [sampleHostState, buildContext] using h2


end Mafc
